import Mathlib

/-!
Verification development for the Taskify meeting-assistant repository.

The embedding covers:
* the live-transcript event handlers of `src/src/App.tsx`
  (`transcript_partial` / `transcript_final` listeners over a
  `TranscriptSegment[]` React state);
* the zustand meeting store of `src/store/meetingStore.ts`
  (`useMeetingStore`: `startMeeting`, `endMeeting`, `addTranscriptEntry`,
  `updateNote`, `updateActionItem`, `getMeetingById`, `exportMeeting`, ...);
* the Format Converter of the audio pipeline, which has no source file in
  the repository snapshot and is therefore modelled from the spec.

JavaScript `Date` values are embedded as `Int` milliseconds-since-epoch;
the nondeterministic `generateId()` / `new Date()` calls are embedded as
explicit parameters of the store actions.
-/

namespace Taskify

/-- `TranscriptSegment` as declared in `src/src/App.tsx`:
`{ text: string; is_final: boolean; timestamp: string }`. -/
structure TranscriptSegment where
  text : String
  is_final : Bool
  timestamp : String
deriving DecidableEq, Repr

/-- One inbound transcript event applied to the React `transcript` state.
Both the `transcript_partial` and the `transcript_final` listeners in
`src/src/App.tsx` have the identical body:
`const last = prev[prev.length - 1];
 if (last && !last.is_final) return [...prev.slice(0, -1), payload];
 return [...prev, payload];`
so a single step function embeds both handlers. -/
def transcriptStep (prev : List TranscriptSegment) (payload : TranscriptSegment) :
    List TranscriptSegment :=
  match prev.getLast? with
  | some lastSeg =>
      if lastSeg.is_final then prev ++ [payload] else prev.dropLast ++ [payload]
  | none => prev ++ [payload]

/-- Delivering a sequence of inbound transcript events (each carrying its
`TranscriptSegment` payload) to the transcript state, in arrival order. -/
def applyEvents (prev : List TranscriptSegment) (evs : List TranscriptSegment) :
    List TranscriptSegment :=
  evs.foldl transcriptStep prev

/-- Modelled from the spec (for comparison with `transcriptStep`, not from
the source): "the new segment's timing indicates it covers the same span".
The only timing datum a `TranscriptSegment` carries is its `timestamp`
string, so same-span is embedded as timestamp equality. -/
def sameSpan (a b : TranscriptSegment) : Bool :=
  a.timestamp == b.timestamp

/-- Modelled from the spec (for comparison with `transcriptStep`, not from
the source): the §4.6 replacement rule as the claim words it — replace the
last segment in place if and only if it is a partial AND the new segment
covers the same span; otherwise append. -/
def specTranscriptStep (prev : List TranscriptSegment) (payload : TranscriptSegment) :
    List TranscriptSegment :=
  match prev.getLast? with
  | some lastSeg =>
      if !lastSeg.is_final && sameSpan lastSeg payload then
        prev.dropLast ++ [payload]
      else prev ++ [payload]
  | none => prev ++ [payload]

/-! ## Data model of `src/types/index.ts` (the fields the store uses) -/

/-- `'positive' | 'neutral' | 'negative'`. -/
inductive Sentiment where
  | positive
  | neutral
  | negative
deriving DecidableEq, Repr

/-- `SentimentAnalysis.breakdown` from `src/types/index.ts`. -/
structure SentimentBreakdown where
  positive : Int
  neutral : Int
  negative : Int
deriving DecidableEq, Repr

/-- `SentimentAnalysis` from `src/types/index.ts`. -/
structure SentimentAnalysis where
  overall : Sentiment
  score : Int
  breakdown : SentimentBreakdown
deriving DecidableEq, Repr

/-- `EngagementMetrics` from `src/types/index.ts`. -/
structure EngagementMetrics where
  participation : Int
  questions : Int
  interruptions : Int
  consensus : Int
deriving DecidableEq, Repr

/-- `SpeakerStats` from `src/types/index.ts`. -/
structure SpeakerStats where
  speaker : String
  speakingTime : Int
  percentage : Int
  wordCount : Int
deriving DecidableEq, Repr

/-- `TopicStats` from `src/types/index.ts`. -/
structure TopicStats where
  topic : String
  frequency : Int
  duration : Int
  sentiment : Sentiment
deriving DecidableEq, Repr

/-- `MeetingInsights` from `src/types/index.ts`. -/
structure MeetingInsights where
  speakingTimeDistribution : List SpeakerStats
  topicDistribution : List TopicStats
  sentiment : SentimentAnalysis
  engagement : EngagementMetrics
  keyDecisions : List String
  followUpRequired : Bool
deriving DecidableEq, Repr

/-- `TranscriptEntry` from `src/types/index.ts`. -/
structure TranscriptEntry where
  id : String
  timestamp : Int
  speaker : String
  text : String
  confidence : Option Int
  isActionItem : Option Bool
  topics : Option (List String)
deriving DecidableEq, Repr

/-- `Note` from `src/types/index.ts`. -/
structure Note where
  id : String
  content : String
  timestamp : Int
  tags : List String
  isImportant : Bool
  linkedTranscriptIds : Option (List String)
deriving DecidableEq, Repr

/-- `'low' | 'medium' | 'high'`. -/
inductive Priority where
  | low
  | medium
  | high
deriving DecidableEq, Repr

/-- `'pending' | 'in_progress' | 'completed'`. -/
inductive ItemStatus where
  | pending
  | in_progress
  | completed
deriving DecidableEq, Repr

/-- `ActionItem` from `src/types/index.ts`. -/
structure ActionItem where
  id : String
  description : String
  assignee : Option String
  dueDate : Option Int
  priority : Priority
  status : ItemStatus
  createdAt : Int
  completedAt : Option Int
deriving DecidableEq, Repr

/-- `Participant` from `src/types/index.ts`. -/
structure Participant where
  id : String
  name : String
  email : Option String
  role : Option String
  speakingTime : Int
  contributions : Int
deriving DecidableEq, Repr

/-- `Meeting` from `src/types/index.ts`. -/
structure Meeting where
  id : String
  title : String
  startTime : Int
  endTime : Option Int
  duration : Option Int
  transcript : List TranscriptEntry
  notes : List Note
  actionItems : List ActionItem
  participants : List Participant
  insights : MeetingInsights
  audioPath : Option String
  summary : Option String
deriving DecidableEq, Repr

/-! ## The zustand store `useMeetingStore` (`src/store/meetingStore.ts`) -/

/-- The state slice of `MeetingStore`. -/
structure StoreState where
  currentMeeting : Option Meeting
  meetings : List Meeting
  isRecording : Bool
  transcriptionHistory : List TranscriptEntry
  currentNotes : List Note
  currentActionItems : List ActionItem
deriving DecidableEq, Repr

/-- The store's initial state. -/
def initialState : StoreState :=
  { currentMeeting := none
    meetings := []
    isRecording := false
    transcriptionHistory := []
    currentNotes := []
    currentActionItems := [] }

/-- The `insights` literal built inside `startMeeting`. -/
def startInsights : MeetingInsights :=
  { speakingTimeDistribution := []
    topicDistribution := []
    sentiment := { overall := Sentiment.neutral, score := 0,
                   breakdown := { positive := 0, neutral := 1, negative := 0 } }
    engagement := { participation := 0, questions := 0, interruptions := 0, consensus := 0 }
    keyDecisions := []
    followUpRequired := false }

/-- The `newMeeting` literal built by `startMeeting`; `id` stands for the
`generateId()` result and `now` for `new Date()`. -/
def newMeeting (id : String) (title : String) (now : Int) : Meeting :=
  { id := id
    title := title
    startTime := now
    endTime := none
    duration := none
    transcript := []
    notes := []
    actionItems := []
    participants := []
    insights := startInsights
    audioPath := none
    summary := none }

/-- `startMeeting: (title = 'New Meeting') => { ...; set({ currentMeeting:
newMeeting, isRecording: true }); }` — a zustand `set` with an object
merges the given keys into the state and leaves the rest unchanged.
Note the source has no already-recording guard. -/
def startMeeting (id : String) (now : Int) (title : Option String) (s : StoreState) :
    StoreState :=
  { s with
    currentMeeting := some (newMeeting id (title.getD "New Meeting") now)
    isRecording := true }

/-- `endMeeting`: if a `currentMeeting` exists, stamp `endTime`/`duration`,
copy the accumulated `transcriptionHistory`/`currentNotes`/`currentActionItems`
into it, append it to `meetings` and reset the live-session state;
otherwise do nothing. `now` stands for both `new Date()` and `Date.now()`. -/
def endMeeting (now : Int) (s : StoreState) : StoreState :=
  match s.currentMeeting with
  | none => s
  | some m =>
      let completedMeeting : Meeting :=
        { m with
          endTime := some now
          duration := some (now - m.startTime)
          transcript := s.transcriptionHistory
          notes := s.currentNotes
          actionItems := s.currentActionItems }
      { s with
        meetings := s.meetings ++ [completedMeeting]
        currentMeeting := none
        isRecording := false
        transcriptionHistory := []
        currentNotes := []
        currentActionItems := [] }

/-- `Omit<TranscriptEntry, 'id'>`: the argument of `addTranscriptEntry`. -/
structure TranscriptEntryData where
  timestamp : Int
  speaker : String
  text : String
  confidence : Option Int
  isActionItem : Option Bool
  topics : Option (List String)
deriving DecidableEq, Repr

/-- `{ ...entry, id: generateId() }` — the entry with its fresh id. -/
def entryWithId (id : String) (e : TranscriptEntryData) : TranscriptEntry :=
  { id := id
    timestamp := e.timestamp
    speaker := e.speaker
    text := e.text
    confidence := e.confidence
    isActionItem := e.isActionItem
    topics := e.topics }

/-- `addTranscriptEntry`: append `{ ...entry, id: generateId() }` to
`transcriptionHistory`; `id` stands for the `generateId()` result. -/
def addTranscriptEntry (id : String) (e : TranscriptEntryData) (s : StoreState) :
    StoreState :=
  { s with transcriptionHistory := s.transcriptionHistory ++ [entryWithId id e] }

/-- A sequence of `addTranscriptEntry` calls in order, each with its
`generateId()` result. -/
def addEntries (ps : List (String × TranscriptEntryData)) (s : StoreState) : StoreState :=
  ps.foldl (fun st p => addTranscriptEntry p.1 p.2 st) s

/-- `Partial<Note>`: every field optional (TypeScript `Partial` includes
`id` as well). -/
structure NoteUpdates where
  id : Option String
  content : Option String
  timestamp : Option Int
  tags : Option (List String)
  isImportant : Option Bool
  linkedTranscriptIds : Option (Option (List String))
deriving DecidableEq, Repr

/-- The JavaScript spread `{ ...note, ...updates }` for a `Partial<Note>`. -/
def applyNoteUpdates (u : NoteUpdates) (n : Note) : Note :=
  { id := u.id.getD n.id
    content := u.content.getD n.content
    timestamp := u.timestamp.getD n.timestamp
    tags := u.tags.getD n.tags
    isImportant := u.isImportant.getD n.isImportant
    linkedTranscriptIds := u.linkedTranscriptIds.getD n.linkedTranscriptIds }

/-- `updateNote: (id, updates) => set(state => ({ currentNotes:
state.currentNotes.map(note => note.id === id ? { ...note, ...updates } : note) }))`. -/
def updateNote (id : String) (u : NoteUpdates) (s : StoreState) : StoreState :=
  { s with
    currentNotes := s.currentNotes.map (fun note =>
      if note.id == id then applyNoteUpdates u note else note) }

/-- `Partial<ActionItem>`: every field optional. -/
structure ActionItemUpdates where
  id : Option String
  description : Option String
  assignee : Option (Option String)
  dueDate : Option (Option Int)
  priority : Option Priority
  status : Option ItemStatus
  createdAt : Option Int
  completedAt : Option (Option Int)
deriving DecidableEq, Repr

/-- The JavaScript spread `{ ...item, ...updates }` for a `Partial<ActionItem>`. -/
def applyItemUpdates (u : ActionItemUpdates) (a : ActionItem) : ActionItem :=
  { id := u.id.getD a.id
    description := u.description.getD a.description
    assignee := u.assignee.getD a.assignee
    dueDate := u.dueDate.getD a.dueDate
    priority := u.priority.getD a.priority
    status := u.status.getD a.status
    createdAt := u.createdAt.getD a.createdAt
    completedAt := u.completedAt.getD a.completedAt }

/-- `updateActionItem: (id, updates) => set(state => ({ currentActionItems:
state.currentActionItems.map(item => item.id === id ? { ...item, ...updates } : item) }))`. -/
def updateActionItem (id : String) (u : ActionItemUpdates) (s : StoreState) : StoreState :=
  { s with
    currentActionItems := s.currentActionItems.map (fun item =>
      if item.id == id then applyItemUpdates u item else item) }

/-- `getMeetingById: (id) => get().meetings.find(meeting => meeting.id === id)`. -/
def getMeetingById (id : String) (s : StoreState) : Option Meeting :=
  s.meetings.find? (fun meeting => meeting.id == id)

/-- The export `format` argument: `'markdown' | 'json' | 'pdf'`. -/
inductive ExportFormat where
  | markdown
  | json
  | pdf
deriving DecidableEq, Repr

/-- A JSON string literal. Models the host `JSON.stringify` handling of
strings; JS character escaping is abstracted (no claim depends on it). -/
def jsonStr (s : String) : String :=
  "\"" ++ s ++ "\""

/-- A JSON field whose value is already rendered. -/
def jsonField (k v : String) : String :=
  jsonStr k ++ ":" ++ v

/-- An optional JSON field: `JSON.stringify` omits `undefined` properties. -/
def jsonOptField (k : String) (v : Option String) : String :=
  match v with
  | none => ""
  | some v => "," ++ jsonField k v

/-- A JSON array from already-rendered element strings. -/
def jsonArr (vs : List String) : String :=
  "[" ++ String.intercalate "," vs ++ "]"

/-- Dates serialize through `Date.prototype.toJSON`; the embedding renders
the millisecond timestamp (the exact ISO text is abstracted). -/
def jsonDate (t : Int) : String :=
  jsonStr (toString t)

/-- `JSON.stringify` of a `TranscriptEntry`. -/
def jsonOfEntry (e : TranscriptEntry) : String :=
  "\x7b" ++ jsonField "id" (jsonStr e.id)
  ++ "," ++ jsonField "timestamp" (jsonDate e.timestamp)
  ++ "," ++ jsonField "speaker" (jsonStr e.speaker)
  ++ "," ++ jsonField "text" (jsonStr e.text)
  ++ jsonOptField "confidence" (e.confidence.map toString)
  ++ jsonOptField "isActionItem" (e.isActionItem.map (fun b => toString b))
  ++ jsonOptField "topics" (e.topics.map (fun ts => jsonArr (ts.map jsonStr)))
  ++ "\x7d"

/-- `JSON.stringify` of a `Note`. -/
def jsonOfNote (n : Note) : String :=
  "\x7b" ++ jsonField "id" (jsonStr n.id)
  ++ "," ++ jsonField "content" (jsonStr n.content)
  ++ "," ++ jsonField "timestamp" (jsonDate n.timestamp)
  ++ "," ++ jsonField "tags" (jsonArr (n.tags.map jsonStr))
  ++ "," ++ jsonField "isImportant" (toString n.isImportant)
  ++ jsonOptField "linkedTranscriptIds" (n.linkedTranscriptIds.map (fun ls => jsonArr (ls.map jsonStr)))
  ++ "\x7d"

/-- The literal of a `Priority`. -/
def priorityText : Priority → String
  | Priority.low => "low"
  | Priority.medium => "medium"
  | Priority.high => "high"

/-- The literal of an `ItemStatus`. -/
def statusText : ItemStatus → String
  | ItemStatus.pending => "pending"
  | ItemStatus.in_progress => "in_progress"
  | ItemStatus.completed => "completed"

/-- The literal of a `Sentiment`. -/
def sentimentText : Sentiment → String
  | Sentiment.positive => "positive"
  | Sentiment.neutral => "neutral"
  | Sentiment.negative => "negative"

/-- `JSON.stringify` of an `ActionItem`. -/
def jsonOfItem (a : ActionItem) : String :=
  "\x7b" ++ jsonField "id" (jsonStr a.id)
  ++ "," ++ jsonField "description" (jsonStr a.description)
  ++ jsonOptField "assignee" (a.assignee.map jsonStr)
  ++ jsonOptField "dueDate" (a.dueDate.map jsonDate)
  ++ "," ++ jsonField "priority" (jsonStr (priorityText a.priority))
  ++ "," ++ jsonField "status" (jsonStr (statusText a.status))
  ++ "," ++ jsonField "createdAt" (jsonDate a.createdAt)
  ++ jsonOptField "completedAt" (a.completedAt.map jsonDate)
  ++ "\x7d"

/-- `JSON.stringify` of a `Participant`. -/
def jsonOfParticipant (p : Participant) : String :=
  "\x7b" ++ jsonField "id" (jsonStr p.id)
  ++ "," ++ jsonField "name" (jsonStr p.name)
  ++ jsonOptField "email" (p.email.map jsonStr)
  ++ jsonOptField "role" (p.role.map jsonStr)
  ++ "," ++ jsonField "speakingTime" (toString p.speakingTime)
  ++ "," ++ jsonField "contributions" (toString p.contributions)
  ++ "\x7d"

/-- `JSON.stringify` of `MeetingInsights`. -/
def jsonOfInsights (ins : MeetingInsights) : String :=
  "\x7b" ++ jsonField "speakingTimeDistribution"
      (jsonArr (ins.speakingTimeDistribution.map (fun st =>
        "\x7b" ++ jsonField "speaker" (jsonStr st.speaker)
        ++ "," ++ jsonField "speakingTime" (toString st.speakingTime)
        ++ "," ++ jsonField "percentage" (toString st.percentage)
        ++ "," ++ jsonField "wordCount" (toString st.wordCount) ++ "\x7d")))
  ++ "," ++ jsonField "topicDistribution"
      (jsonArr (ins.topicDistribution.map (fun tp =>
        "\x7b" ++ jsonField "topic" (jsonStr tp.topic)
        ++ "," ++ jsonField "frequency" (toString tp.frequency)
        ++ "," ++ jsonField "duration" (toString tp.duration)
        ++ "," ++ jsonField "sentiment" (jsonStr (sentimentText tp.sentiment)) ++ "\x7d")))
  ++ "," ++ jsonField "sentiment"
      ("\x7b" ++ jsonField "overall" (jsonStr (sentimentText ins.sentiment.overall))
       ++ "," ++ jsonField "score" (toString ins.sentiment.score)
       ++ "," ++ jsonField "breakdown"
          ("\x7b" ++ jsonField "positive" (toString ins.sentiment.breakdown.positive)
           ++ "," ++ jsonField "neutral" (toString ins.sentiment.breakdown.neutral)
           ++ "," ++ jsonField "negative" (toString ins.sentiment.breakdown.negative)
           ++ "\x7d")
       ++ "\x7d")
  ++ "," ++ jsonField "engagement"
      ("\x7b" ++ jsonField "participation" (toString ins.engagement.participation)
       ++ "," ++ jsonField "questions" (toString ins.engagement.questions)
       ++ "," ++ jsonField "interruptions" (toString ins.engagement.interruptions)
       ++ "," ++ jsonField "consensus" (toString ins.engagement.consensus)
       ++ "\x7d")
  ++ "," ++ jsonField "keyDecisions" (jsonArr (ins.keyDecisions.map jsonStr))
  ++ "," ++ jsonField "followUpRequired" (toString ins.followUpRequired)
  ++ "\x7d"

/-- `JSON.stringify(meeting, null, 2)`: the host serialization of a
`Meeting` (indentation whitespace abstracted, structure preserved). -/
def stringifyMeeting (m : Meeting) : String :=
  "\x7b" ++ jsonField "id" (jsonStr m.id)
  ++ "," ++ jsonField "title" (jsonStr m.title)
  ++ "," ++ jsonField "startTime" (jsonDate m.startTime)
  ++ jsonOptField "endTime" (m.endTime.map jsonDate)
  ++ jsonOptField "duration" (m.duration.map toString)
  ++ "," ++ jsonField "transcript" (jsonArr (m.transcript.map jsonOfEntry))
  ++ "," ++ jsonField "notes" (jsonArr (m.notes.map jsonOfNote))
  ++ "," ++ jsonField "actionItems" (jsonArr (m.actionItems.map jsonOfItem))
  ++ "," ++ jsonField "participants" (jsonArr (m.participants.map jsonOfParticipant))
  ++ "," ++ jsonField "insights" (jsonOfInsights m.insights)
  ++ jsonOptField "audioPath" (m.audioPath.map jsonStr)
  ++ jsonOptField "summary" (m.summary.map jsonStr)
  ++ "\x7d"

/-- `toLocaleDateString()` / `toLocaleTimeString()` are locale dependent;
the embedding renders the millisecond timestamp. -/
def localeText (t : Int) : String :=
  toString t

/-- `Math.round((meeting.duration || 0) / 60000)`. -/
def roundMinutes (d : Int) : Int :=
  round ((d : ℚ) / 60000)

/-- `exportToMarkdown(meeting)` from `src/store/meetingStore.ts`. -/
def exportToMarkdown (m : Meeting) : String :=
  let base :=
    "# " ++ m.title ++ "\n\n"
    ++ "**Date:** " ++ localeText m.startTime ++ "\n"
    ++ "**Duration:** " ++ toString (roundMinutes (m.duration.getD 0)) ++ " minutes\n\n"
  let withParticipants :=
    if m.participants.length > 0 then
      base ++ "## Participants\n\n"
      ++ String.join (m.participants.map (fun p =>
           "- " ++ p.name ++ (match p.role with
             | some r => " (" ++ r ++ ")"
             | none => "") ++ "\n"))
      ++ "\n"
    else base
  let withTranscript :=
    if m.transcript.length > 0 then
      withParticipants ++ "## Transcript\n\n"
      ++ String.join (m.transcript.map (fun e =>
           "**" ++ e.speaker ++ "** (" ++ localeText e.timestamp ++ "):\n"
           ++ e.text ++ "\n\n"))
    else withParticipants
  if m.actionItems.length > 0 then
    withTranscript ++ "## Action Items\n\n"
    ++ String.join (m.actionItems.map (fun a =>
         "- [ ] " ++ a.description
         ++ (match a.assignee with
             | some who => " - **Assigned to:** " ++ who
             | none => "")
         ++ (match a.dueDate with
             | some d => " - **Due:** " ++ localeText d
             | none => "")
         ++ "\n"))
  else withTranscript

/-- `exportMeeting: (id, format) => { const meeting = get().getMeetingById(id);
if (!meeting) return ''; switch (format) { case 'json': return
JSON.stringify(meeting, null, 2); case 'markdown': return
exportToMarkdown(meeting); default: return JSON.stringify(meeting, null, 2); } }`.
The action only reads the store, so the embedding returns the produced
text together with the (unchanged) state. -/
def exportMeeting (id : String) (format : ExportFormat) (s : StoreState) :
    String × StoreState :=
  match getMeetingById id s with
  | none => ("", s)
  | some meeting =>
      match format with
      | ExportFormat.json => (stringifyMeeting meeting, s)
      | ExportFormat.markdown => (exportToMarkdown meeting, s)
      | ExportFormat.pdf => (stringifyMeeting meeting, s)

/-! ## Format Converter -/

/-- Modelled from the spec: the Format Converter belongs to the audio
capture pipeline (a Tauri backend), whose source is not part of this
repository snapshot; only the spec describes it. Per §4.3 it is the pure
function from a floating-point sample in `[-1.0, 1.0]` to a signed 16-bit
integer via scaling and clamping: `1.0` maps to the maximum positive
16-bit value, `-1.0` to the minimum, values outside the range clamp.
Samples are embedded as rationals. -/
def floatToPcm16 (x : ℚ) : ℤ :=
  max (-32768) (min 32767 ⌊x * 32768⌋)

/-! ## Concrete values used by the witness theorems -/

/-- A concrete meeting, as `startMeeting` would build it. -/
def mEx : Meeting := newMeeting "m1" "Standup" 100

/-- A concrete transcript entry. -/
def eEx : TranscriptEntry :=
  { id := "e1", timestamp := 1, speaker := "alice", text := "hi"
    confidence := none, isActionItem := none, topics := none }

/-- A concrete action item. -/
def aEx : ActionItem :=
  { id := "a1", description := "ship it", assignee := none, dueDate := none
    priority := Priority.medium, status := ItemStatus.pending
    createdAt := 2, completedAt := none }

/-- A concrete note. -/
def nEx : Note :=
  { id := "n1", content := "remember", timestamp := 3, tags := []
    isImportant := false, linkedTranscriptIds := none }

/-- A concrete store state with an active session. -/
def sEx : StoreState :=
  { currentMeeting := some mEx
    meetings := []
    isRecording := true
    transcriptionHistory := [eEx]
    currentNotes := [nEx]
    currentActionItems := [aEx] }

/-- A concrete `Partial<ActionItem>` update. -/
def uEx : ActionItemUpdates :=
  { id := none, description := some "ship it today", assignee := some (some "bob")
    dueDate := none, priority := none, status := none
    createdAt := none, completedAt := none }

/-- A concrete `Partial<Note>` update. -/
def vEx : NoteUpdates :=
  { id := none, content := some "remember more", timestamp := none
    tags := none, isImportant := some true, linkedTranscriptIds := none }

/-! ## Theorems -/

/-- C1: delivering the inbound event sequence `partial("he")`,
`partial("hello")`, `final("hello world")` (all with the same timestamp,
i.e. the same span) to an initially empty transcript list leaves the list
with exactly one entry, the final segment `"hello world"`. -/
theorem transcript_replacement_scenario :
    applyEvents []
      [⟨"he", false, "t0"⟩, ⟨"hello", false, "t0"⟩, ⟨"hello world", true, "t0"⟩]
      = [⟨"hello world", true, "t0"⟩] := by
  decide

/-- C2 counterexample: `startMeeting` has no already-recording guard.
Starting once from the initial state sets `isRecording`; a second
`startMeeting` call then does NOT leave the store unchanged — it replaces
the current session, refuting the claim that the second call is a
rejected no-op. -/
theorem startMeeting_second_call_changes_state :
    (startMeeting "a" 0 none initialState).isRecording = true ∧
    startMeeting "b" 5 none (startMeeting "a" 0 none initialState)
      ≠ startMeeting "a" 0 none initialState := by
  decide

/-- C2 amended: calling `startMeeting` while a session is already active
does not return an "already recording" condition; it replaces
`currentMeeting` with a fresh meeting built from the new id and start
time, keeps `isRecording` true, and leaves the stored meetings and the
live accumulators untouched. -/
theorem startMeeting_no_guard_fresh_session (s : StoreState)
    (_hs : s.isRecording = true) (id : String) (now : Int) (title : Option String) :
    (startMeeting id now title s).currentMeeting
        = some (newMeeting id (title.getD "New Meeting") now) ∧
    (startMeeting id now title s).isRecording = true ∧
    (startMeeting id now title s).meetings = s.meetings ∧
    (startMeeting id now title s).transcriptionHistory = s.transcriptionHistory ∧
    (startMeeting id now title s).currentNotes = s.currentNotes ∧
    (startMeeting id now title s).currentActionItems = s.currentActionItems :=
  ⟨rfl, rfl, rfl, rfl, rfl, rfl⟩

/-- C2 witness: the amended statement at the concrete active store `sEx`. -/
theorem startMeeting_no_guard_fresh_session_inst :
    (startMeeting "b" 5 none sEx).currentMeeting
        = some (newMeeting "b" "New Meeting" 5) ∧
    (startMeeting "b" 5 none sEx).isRecording = true ∧
    (startMeeting "b" 5 none sEx).meetings = sEx.meetings ∧
    (startMeeting "b" 5 none sEx).transcriptionHistory = sEx.transcriptionHistory ∧
    (startMeeting "b" 5 none sEx).currentNotes = sEx.currentNotes ∧
    (startMeeting "b" 5 none sEx).currentActionItems = sEx.currentActionItems :=
  startMeeting_no_guard_fresh_session sEx rfl "b" 5 none

/-- C3: for every state with an active session, `endMeeting` appends to
the stored meetings a finalized meeting whose `endTime` is stamped, whose
`duration` is the elapsed time, and whose transcript/notes/action items
are exactly the accumulated live lists (in arrival order), and it resets
the active-session state (`currentMeeting` cleared, `isRecording` false,
accumulators emptied). -/
theorem endMeeting_finalizes_session (now : Int) (s : StoreState) (m : Meeting)
    (h : s.currentMeeting = some m) :
    endMeeting now s =
      { s with
        meetings := s.meetings ++
          [{ m with
             endTime := some now
             duration := some (now - m.startTime)
             transcript := s.transcriptionHistory
             notes := s.currentNotes
             actionItems := s.currentActionItems }]
        currentMeeting := none
        isRecording := false
        transcriptionHistory := []
        currentNotes := []
        currentActionItems := [] } := by
  simp [endMeeting, h]

/-- C3 witness: `endMeeting` at the concrete active store `sEx`. -/
theorem endMeeting_finalizes_session_inst :
    endMeeting 200 sEx =
      { sEx with
        meetings := sEx.meetings ++
          [{ mEx with
             endTime := some 200
             duration := some (200 - mEx.startTime)
             transcript := sEx.transcriptionHistory
             notes := sEx.currentNotes
             actionItems := sEx.currentActionItems }]
        currentMeeting := none
        isRecording := false
        transcriptionHistory := []
        currentNotes := []
        currentActionItems := [] } :=
  endMeeting_finalizes_session 200 sEx mEx rfl

/-- C4 counterexample: the handler ignores the segments' timing entirely.
With a trailing partial at timestamp `"t1"` and a new segment at a
different timestamp `"t2"` (not the same span), the handler still
replaces the last segment, while the claimed rule (replace iff last is
partial AND same span, embedded as `specTranscriptStep`) would append. -/
theorem transcriptStep_ignores_span :
    transcriptStep [⟨"he", false, "t1"⟩] ⟨"hi", false, "t2"⟩
        = [⟨"hi", false, "t2"⟩] ∧
    sameSpan ⟨"he", false, "t1"⟩ ⟨"hi", false, "t2"⟩ = false ∧
    specTranscriptStep [⟨"he", false, "t1"⟩] ⟨"hi", false, "t2"⟩
        = [⟨"he", false, "t1"⟩, ⟨"hi", false, "t2"⟩] ∧
    transcriptStep [⟨"he", false, "t1"⟩] ⟨"hi", false, "t2"⟩
        ≠ specTranscriptStep [⟨"he", false, "t1"⟩] ⟨"hi", false, "t2"⟩ := by
  decide

/-- C4 amended: on each inbound segment the handler replaces the most
recently appended segment in place if and only if that last segment is a
partial (`is_final = false`) — regardless of the new segment's timing; in
every other case (empty list, or final last segment) it appends. -/
theorem transcriptStep_characterization (prev : List TranscriptSegment)
    (payload : TranscriptSegment) :
    (∀ lastSeg, prev.getLast? = some lastSeg → lastSeg.is_final = false →
        transcriptStep prev payload = prev.dropLast ++ [payload]) ∧
    (∀ lastSeg, prev.getLast? = some lastSeg → lastSeg.is_final = true →
        transcriptStep prev payload = prev ++ [payload]) ∧
    (prev.getLast? = none → transcriptStep prev payload = prev ++ [payload]) := by
  refine ⟨?_, ?_, ?_⟩
  · intro lastSeg hl hfin
    simp [transcriptStep, hl, hfin]
  · intro lastSeg hl hfin
    simp [transcriptStep, hl, hfin]
  · intro hl
    simp [transcriptStep, hl]

/-- C4 witness: the replace branch at a concrete trailing partial. -/
theorem transcriptStep_characterization_inst :
    transcriptStep [⟨"he", false, "t1"⟩] ⟨"hi", false, "t2"⟩
      = List.dropLast [⟨"he", false, "t1"⟩] ++ [⟨"hi", false, "t2"⟩] :=
  (transcriptStep_characterization [⟨"he", false, "t1"⟩] ⟨"hi", false, "t2"⟩).1
    ⟨"he", false, "t1"⟩ rfl rfl

/-- Helper: one transcript event never disturbs a final segment already
in the list — the element at any position holding a final segment is
unchanged by `transcriptStep`. -/
theorem transcriptStep_get?_of_final (prev : List TranscriptSegment)
    (e : TranscriptSegment) (i : Nat) (h : i < prev.length)
    (hf : prev[i].is_final = true) :
    (transcriptStep prev e)[i]? = some prev[i] := by
  unfold transcriptStep
  split
  next lastSeg hl =>
    by_cases hfin : lastSeg.is_final = true
    · rw [if_pos hfin, List.getElem?_append]
      simp [h, List.getElem?_eq_getElem h]
    · rw [if_neg hfin]
      have hlast : prev[prev.length - 1]? = some lastSeg := by
        rw [← List.getLast?_eq_getElem?]
        exact hl
      have hi : i ≠ prev.length - 1 := by
        intro hc
        subst hc
        rw [List.getElem?_eq_getElem h] at hlast
        have hEq := Option.some.inj hlast
        rw [hEq] at hf
        exact hfin hf
      have hi2 : i < prev.dropLast.length := by
        rw [List.length_dropLast]
        omega
      rw [List.getElem?_append]
      rw [if_pos hi2, List.getElem?_eq_getElem hi2, List.getElem_dropLast]
  next hl =>
    rw [List.getLast?_eq_none_iff] at hl
    subst hl
    simp at h

/-- C5: over every sequence of transcript events, once a segment with
`is_final = true` sits at position `i` of the list, no later event
modifies, replaces or removes it — the entry at `i` is still that very
segment after delivering any further events. -/
theorem final_segments_immutable (prev : List TranscriptSegment)
    (evs : List TranscriptSegment) (i : Nat) (h : i < prev.length)
    (hf : prev[i].is_final = true) :
    (applyEvents prev evs)[i]? = some prev[i] := by
  induction evs generalizing prev with
  | nil =>
      exact List.getElem?_eq_getElem h
  | cons e es ih =>
      have hstep := transcriptStep_get?_of_final prev e i h hf
      obtain ⟨h2, hEq⟩ := List.getElem?_eq_some_iff.mp hstep
      have happly : applyEvents prev (e :: es) = applyEvents (transcriptStep prev e) es := rfl
      rw [happly]
      have hf2 : (transcriptStep prev e)[i].is_final = true := by
        rw [hEq]
        exact hf
      rw [ih (transcriptStep prev e) h2 hf2, hEq]

/-- C5 witness: a concrete final segment survives a later partial event. -/
theorem final_segments_immutable_inst :
    (applyEvents [⟨"done", true, "t0"⟩] [⟨"next", false, "t1"⟩])[0]?
      = some ⟨"done", true, "t0"⟩ :=
  final_segments_immutable [⟨"done", true, "t0"⟩] [⟨"next", false, "t1"⟩] 0
    (by decide) rfl

/-- C6: a sequence of `addTranscriptEntry` calls accumulates exactly the
given entries, each with its assigned id, appended at the end in call
order — never reordering or dropping earlier entries. -/
theorem addTranscriptEntry_appends_in_order
    (ps : List (String × TranscriptEntryData)) (s : StoreState) :
    (addEntries ps s).transcriptionHistory
      = s.transcriptionHistory ++ ps.map (fun p => entryWithId p.1 p.2) := by
  induction ps generalizing s with
  | nil => simp [addEntries]
  | cons p ps ih =>
      have hstep : addEntries (p :: ps) s = addEntries ps (addTranscriptEntry p.1 p.2 s) := rfl
      rw [hstep, ih]
      simp [addTranscriptEntry]

/-- C7: the Format Converter maps `1.0` to the maximum positive signed
16-bit value, `-1.0` to the minimum, `0.0` to `0`, and clamps (never
wraps) every input outside `[-1, 1]` to the corresponding boundary. -/
theorem floatToPcm16_bounds :
    floatToPcm16 1 = 32767 ∧
    floatToPcm16 (-1) = -32768 ∧
    floatToPcm16 0 = 0 ∧
    (∀ x : ℚ, 1 < x → floatToPcm16 x = 32767) ∧
    (∀ x : ℚ, x < -1 → floatToPcm16 x = -32768) := by
  refine ⟨by norm_num [floatToPcm16], by norm_num [floatToPcm16],
    by norm_num [floatToPcm16], ?_, ?_⟩
  · intro x hx
    have h1 : (32768 : ℤ) ≤ ⌊x * 32768⌋ := by
      rw [Int.le_floor]
      push_cast
      nlinarith
    unfold floatToPcm16
    rw [min_eq_left (by omega), max_eq_right (by norm_num)]
  · intro x hx
    have h2 : (⌊x * 32768⌋ : ℚ) ≤ x * 32768 := Int.floor_le _
    have h3 : x * 32768 < -32768 := by nlinarith
    have h4 : ⌊x * 32768⌋ < -32768 := by
      have h5 : (⌊x * 32768⌋ : ℚ) < -32768 := lt_of_le_of_lt h2 h3
      exact_mod_cast h5
    unfold floatToPcm16
    rw [min_eq_right (by omega), max_eq_left (by omega)]

/-- C7 witness: clamping at the concrete out-of-range inputs `2` and `-2`. -/
theorem floatToPcm16_bounds_inst :
    floatToPcm16 2 = 32767 ∧ floatToPcm16 (-2) = -32768 :=
  ⟨floatToPcm16_bounds.2.2.2.1 2 (by norm_num),
   floatToPcm16_bounds.2.2.2.2 (-2) (by norm_num)⟩

/-- C8: `endMeeting` with no active session (`currentMeeting = none`)
leaves the entire store state unchanged. -/
theorem endMeeting_no_session_noop (now : Int) (s : StoreState)
    (h : s.currentMeeting = none) :
    endMeeting now s = s := by
  simp [endMeeting, h]

/-- C8 witness: `endMeeting` on the initial (idle) store. -/
theorem endMeeting_no_session_noop_inst :
    endMeeting 5 initialState = initialState :=
  endMeeting_no_session_noop 5 initialState rfl

/-- C9: `exportMeeting` returns the empty string when no stored meeting
has the given id; when the meeting exists, format `json` and the
non-`markdown` default (`pdf`) both return the JSON serialization of the
meeting; and the call never modifies the store. -/
theorem exportMeeting_spec (id : String) (s : StoreState) :
    (getMeetingById id s = none →
        ∀ format, exportMeeting id format s = ("", s)) ∧
    (∀ m, getMeetingById id s = some m →
        exportMeeting id ExportFormat.json s = (stringifyMeeting m, s) ∧
        exportMeeting id ExportFormat.pdf s = (stringifyMeeting m, s)) ∧
    (∀ format, (exportMeeting id format s).2 = s) := by
  refine ⟨?_, ?_, ?_⟩
  · intro h format
    simp [exportMeeting, h]
  · intro m h
    exact ⟨by simp [exportMeeting, h], by simp [exportMeeting, h]⟩
  · intro format
    unfold exportMeeting
    cases getMeetingById id s with
    | none => rfl
    | some m => cases format <;> rfl

/-- C9 witness: exporting an unknown id from the initial store. -/
theorem exportMeeting_spec_inst :
    exportMeeting "zzz" ExportFormat.json initialState = ("", initialState) :=
  (exportMeeting_spec "zzz" initialState).1 rfl ExportFormat.json

/-- C10: `updateActionItem id u` changes at most the action items whose
id matches — every action item with a different id keeps its value and
position, every other store field is unchanged, and if no item has the id
the whole list is unchanged; the same frame property holds for
`updateNote` over the notes. -/
theorem update_frame_properties (id : String) (u : ActionItemUpdates)
    (v : NoteUpdates) (s : StoreState) :
    (∀ i (h : i < s.currentActionItems.length), s.currentActionItems[i].id ≠ id →
        (updateActionItem id u s).currentActionItems[i]? = some s.currentActionItems[i]) ∧
    ((updateActionItem id u s).currentMeeting = s.currentMeeting ∧
     (updateActionItem id u s).meetings = s.meetings ∧
     (updateActionItem id u s).isRecording = s.isRecording ∧
     (updateActionItem id u s).transcriptionHistory = s.transcriptionHistory ∧
     (updateActionItem id u s).currentNotes = s.currentNotes) ∧
    ((∀ a ∈ s.currentActionItems, a.id ≠ id) →
        (updateActionItem id u s).currentActionItems = s.currentActionItems) ∧
    (∀ i (h : i < s.currentNotes.length), s.currentNotes[i].id ≠ id →
        (updateNote id v s).currentNotes[i]? = some s.currentNotes[i]) ∧
    ((updateNote id v s).currentMeeting = s.currentMeeting ∧
     (updateNote id v s).meetings = s.meetings ∧
     (updateNote id v s).isRecording = s.isRecording ∧
     (updateNote id v s).transcriptionHistory = s.transcriptionHistory ∧
     (updateNote id v s).currentActionItems = s.currentActionItems) ∧
    ((∀ n ∈ s.currentNotes, n.id ≠ id) →
        (updateNote id v s).currentNotes = s.currentNotes) := by
  refine ⟨?_, ⟨rfl, rfl, rfl, rfl, rfl⟩, ?_, ?_, ⟨rfl, rfl, rfl, rfl, rfl⟩, ?_⟩
  · intro i h hne
    rw [updateActionItem]
    simp only [List.getElem?_map, List.getElem?_eq_getElem h]
    simp [hne]
  · intro hall
    rw [updateActionItem]
    have hmap : s.currentActionItems.map (fun item =>
        if item.id == id then applyItemUpdates u item else item)
        = s.currentActionItems := by
      have h1 : s.currentActionItems.map (fun item =>
          if item.id == id then applyItemUpdates u item else item)
          = s.currentActionItems.map (fun item => item) :=
        List.map_congr_left (fun a ha => by simp [hall a ha])
      rw [h1]
      exact List.map_id' s.currentActionItems
    exact hmap
  · intro i h hne
    rw [updateNote]
    simp only [List.getElem?_map, List.getElem?_eq_getElem h]
    simp [hne]
  · intro hall
    rw [updateNote]
    have hmap : s.currentNotes.map (fun note =>
        if note.id == id then applyNoteUpdates v note else note)
        = s.currentNotes := by
      have h1 : s.currentNotes.map (fun note =>
          if note.id == id then applyNoteUpdates v note else note)
          = s.currentNotes.map (fun note => note) :=
        List.map_congr_left (fun n hn => by simp [hall n hn])
      rw [h1]
      exact List.map_id' s.currentNotes
    exact hmap

/-- C10 witness: updating a non-existent id leaves the concrete store's
action-item list unchanged. -/
theorem update_frame_properties_inst :
    (updateActionItem "zzz" uEx sEx).currentActionItems = sEx.currentActionItems :=
  (update_frame_properties "zzz" uEx vEx sEx).2.2.1 (by decide)

end Taskify
